import Mathlib

/-!
Shallow embedding of `Resume_bot_StreamLit_v1.py`, a single-file Streamlit
resume chatbot, together with proofs of its specified properties.

The Python module has three phases, all modelled here:
  * startup: load two context files (a LinkedIn PDF and a summary text file)
    into strings, tolerating absence/corruption; build one system prompt
    string from the loaded context and hard-coded identity constants;
  * rendering: an expander shows the loaded context (the LinkedIn blob
    truncated to its first 500 characters);
  * per user turn: log the prompt to `chat_logs.txt`, append a user message
    to `st.session_state.messages`, call the Groq chat-completion API with
    `[system prompt] ++ history`, and append the returned (or error) text as
    an assistant message.

External effects (the filesystem, the clock, Streamlit notifications, the
Groq API) are modelled as explicit parameters and event traces; Python
strings are Lean `String`s, the session state is an explicit record.
-/

namespace ResumeBot

/-- One chat message dict `{"role": ..., "content": ...}` as stored in
`st.session_state.messages` and sent to the API. -/
structure Turn where
  role : String
  content : String
deriving DecidableEq, Repr

/-- `name = "Salman Mohd"` (line 22 of the source). -/
def name : String := "Salman Mohd"

/-- `primary_role_1 = "SAP HANA Administrator"` (line 23). -/
def primary_role_1 : String := "SAP HANA Administrator"

/-- `primary_role_2 = "Agentic AI Beginner"` (line 24). -/
def primary_role_2 : String := "Agentic AI Beginner"

/-! ## Context Loader (source lines 32-55)

The PDF is modelled as either absent, failing on open (`PdfReader` raises),
or a list of per-page extraction outcomes; `page.extract_text()` returns an
optional string (`PageResult.ret`) or raises (`PageResult.raise`, carrying
the exception text).  The summary file is absent, unreadable, or readable
with some content.  Streamlit notifications are collected as `Notice`s. -/

/-- Outcome of `page.extract_text()` for one PDF page. -/
inductive PageResult where
  | ret (t : Option String)
  | raise (e : String)
deriving DecidableEq, Repr

/-- The state of the file at `"me/linkedin.pdf"`. -/
inductive PdfFile where
  | absent
  | openFail (e : String)
  | pages (ps : List PageResult)
deriving DecidableEq, Repr

/-- The state of the file at `"me/summary.txt"`. -/
inductive TextFile where
  | absent
  | readFail (e : String)
  | content (s : String)
deriving DecidableEq, Repr

/-- A Streamlit notification: `st.warning` or `st.error`. -/
inductive Notice where
  | warning (msg : String)
  | error (msg : String)
deriving DecidableEq, Repr

/-- The page loop of lines 37-40: starting from accumulator `acc`
(`linkedin`), append each page's extracted text when it is truthy
(`if text:`); a raising page aborts the loop, the exception propagating to
the `except` on line 43 with whatever was accumulated so far.  Returns the
accumulated string and the exception text if one was raised. -/
def extractLinkedin : List PageResult → String → String × Option String
  | [], acc => (acc, none)
  | PageResult.ret t :: rest, acc =>
    match t with
    | some s => if s = "" then extractLinkedin rest acc else extractLinkedin rest (acc ++ s)
    | none => extractLinkedin rest acc
  | PageResult.raise e :: _, acc => (acc, some e)

/-- Lines 32-44: load the LinkedIn blob.  Absent file: warning, empty blob.
Open failure or a raising page: `st.error` with the exception text; the blob
keeps whatever the loop accumulated before the exception. -/
def loadLinkedin : PdfFile → String × List Notice
  | PdfFile.absent =>
    ("", [Notice.warning "📄 LinkedIn PDF not found at: me/linkedin.pdf. Chatbot context may be limited."])
  | PdfFile.openFail e =>
    ("", [Notice.error ("❌ Error reading LinkedIn PDF: " ++ e)])
  | PdfFile.pages ps =>
    match extractLinkedin ps "" with
    | (blob, none) => (blob, [])
    | (blob, some e) => (blob, [Notice.error ("❌ Error reading LinkedIn PDF: " ++ e)])

/-- Lines 46-55: load the summary blob. -/
def loadSummary : TextFile → String × List Notice
  | TextFile.absent =>
    ("", [Notice.warning "📝 Summary file not found at: me/summary.txt. Chatbot context may be limited."])
  | TextFile.readFail e =>
    ("", [Notice.error ("❌ Error reading summary file: " ++ e)])
  | TextFile.content s => (s, [])

/-- Text contributed by a raise-free prefix of pages: concatenation of the
truthy extracted texts (used to characterise `extractLinkedin`). -/
def pagesText : List PageResult → String
  | [] => ""
  | PageResult.ret (some s) :: rest => if s = "" then pagesText rest else s ++ pagesText rest
  | PageResult.ret none :: rest => pagesText rest
  | PageResult.raise _ :: _ => ""

/-- Whether a page outcome is a raised exception. -/
def isRaise : PageResult → Bool
  | PageResult.raise _ => true
  | _ => false

/-! ## Prompt Builder (source lines 59-77)

`system_prompt` is one f-string template; `spA0`, `spA1`, `spB`, `spC` are
its literal segments between the interpolation points, spelled here
character for character (including the trailing spaces inside the template
and the leading/trailing newlines of the triple-quoted string). -/

/-- Template text before the first `{name}` interpolation. -/
def spA0 : String := "\nYou are acting as "

/-- Template text from after the first `{name}` up to the `{summary}`
interpolation (with the remaining `{name}` / role interpolations filled). -/
def spA1 : String :=
  ". You are answering questions on " ++ name ++ "'s website, \nparticularly questions related to "
  ++ name ++ "'s career, background, skills, and experience as a \n**" ++ primary_role_1
  ++ "** and **" ++ primary_role_2 ++ "**.\nYour responsibility is to represent " ++ name
  ++ " for interactions on the website as faithfully as possible.\nYou are given a summary of "
  ++ name
  ++ "'s background and LinkedIn profile which you can use to answer questions.\nBe professional, engaging, and don't use any other language other than English, as if talking to a potential client or future employer who came across the website.\nWhen discussing the SAP HANA Admin role, focus on database administration, performance tuning and security which is mentioned in the PDF. Also mention in the interaction that all responses are with in the information provided by "
  ++ name
  ++ " not from LLM search\nWhen discussing on AI agents, LLMs, and leveraging large models for complex tasks.\nIf you don't know the answer, say so clearly and professionally.\n\n## Summary:\n"

/-- Template text between `{summary}` and `{linkedin}`. -/
def spB : String := "\n\n## LinkedIn Profile:\n"

/-- Template text after `{linkedin}`. -/
def spC : String :=
  "\n\nWith this context, please chat with the user, always staying in character as " ++ name ++ ".\n"

/-- The system prompt (lines 59-77): the f-string applied to the two loaded
context blobs; computed once at startup. -/
def system_prompt (summary linkedin : String) : String :=
  spA0 ++ name ++ spA1 ++ summary ++ spB ++ linkedin ++ spC

/-! ## Context expander (source lines 118-123) -/

/-- `s.data.take n` as a string: Python's slice `s[:n]`. -/
def strTake (s : String) (n : Nat) : String := ⟨s.data.take n⟩

/-- Line 122: `linkedin[:500] + "..." if linkedin else "No LinkedIn data loaded."`.
The conditional expression binds loosest, so the `"..."` is part of the
truthy branch. -/
def linkedinPreview (linkedin : String) : String :=
  if linkedin = "" then "No LinkedIn data loaded." else strTake linkedin 500 ++ "..."

/-! ## Chat function and turn handler (source lines 81-102 and 141-178) -/

/-- Whether the Groq client initialised (line 15-19): `groq_client` is the
client object, or `None` after `Groq()` raised. -/
inductive Client where
  | ok
  | uninitialized
deriving DecidableEq, Repr

/-- One API call outcome: the completion text, or the raised exception's
text. -/
inductive ApiResult where
  | ok (content : String)
  | error (e : String)
deriving DecidableEq, Repr

/-- Observable side effects of one turn, in order of occurrence. -/
inductive Event where
  | logWrite (entry : String)
  | logFailure (printed : String)
  | appendUser (t : Turn)
  | apiCall (msgs : List Turn)
  | appendAssistant (t : Turn)
deriving DecidableEq, Repr

/-- Lines 87-93: `messages = [{"role": "system", "content": system_prompt}]`
then one appended dict per history entry. -/
def apiMessages (sys : String) (chat_history : List Turn) : List Turn :=
  Turn.mk "system" sys :: chat_history.map (fun msg => Turn.mk msg.role msg.content)

/-- Line 84's early return. -/
def clientNotInitializedMsg : String :=
  "The Groq client is not initialized. Cannot generate a response."

/-- Line 102's except-branch return value. -/
def apiErrorMsg (e : String) : String :=
  "An error occurred while communicating with the Groq API. This could be a connectivity issue or an invalid API key. Error: " ++ e

/-- `get_groq_response` (lines 81-102).  `api` is the external completion
service, a function of the sent message list.  The result is the returned
string, the final state of the `chat_history` argument (Python passes the
list by reference; the function only reads it), and the API-call events. -/
def get_groq_response (client : Client) (sys : String) (api : List Turn → ApiResult)
    (chat_history : List Turn) : String × List Turn × List Event :=
  match client with
  | Client.uninitialized => (clientNotInitializedMsg, chat_history, [])
  | Client.ok =>
    let messages := apiMessages sys chat_history
    match api messages with
    | ApiResult.ok content => (content, chat_history, [Event.apiCall messages])
    | ApiResult.error e => (apiErrorMsg e, chat_history, [Event.apiCall messages])

/-- The session state: `st.session_state.messages`, the lines so far
appended to `chat_logs.txt`, and the strings printed to stdout by the
logging except-branch (line 156). -/
structure AppState where
  messages : List Turn
  chatLog : List String
  printed : List String
deriving DecidableEq, Repr

/-- Lines 128-131: initial history, one assistant greeting. -/
def greeting : String :=
  "Hello! I'm " ++ name ++ "'s AI assistant. I can answer questions about Salman's experience in **"
  ++ primary_role_1 ++ "** and **" ++ primary_role_2 ++ "**. What would you like to know?"

/-- The session state right after initialisation. -/
def initialState : AppState :=
  AppState.mk [Turn.mk "assistant" greeting] [] []

/-- The log line of lines 148-149: `f"[{timestamp}] USER PROMPT: {user_prompt}\n"`. -/
def logEntry (ts user_prompt : String) : String :=
  "[" ++ ts ++ "] USER PROMPT: " ++ user_prompt ++ "\n"

/-- `log_user_prompt` (lines 145-156).  `ts` is `datetime.now().strftime(...)`;
`logFail` is `none` when the file write succeeds and `some e` when `open`
or `write` raises `e`, in which case the error is printed (line 156). -/
def log_user_prompt (ts : String) (logFail : Option String) (user_prompt : String)
    (st : AppState) : AppState × List Event :=
  match logFail with
  | none =>
    ({ st with chatLog := st.chatLog ++ [logEntry ts user_prompt] },
     [Event.logWrite (logEntry ts user_prompt)])
  | some e =>
    ({ st with printed := st.printed ++ ["Error logging prompt: " ++ e] },
     [Event.logFailure ("Error logging prompt: " ++ e)])

/-- The chat input handler (lines 141-178) for one submitted `prompt`:
log the prompt, append the user message, call `get_groq_response` on the
updated history, append the response as an assistant message.  Returns the
new state and the ordered event trace of the turn. -/
def handle_prompt (client : Client) (sys : String) (api : List Turn → ApiResult)
    (prompt ts : String) (logFail : Option String) (st : AppState) : AppState × List Event :=
  let l := log_user_prompt ts logFail prompt st
  let st2 := { l.1 with messages := l.1.messages ++ [Turn.mk "user" prompt] }
  let g := get_groq_response client sys api st2.messages
  ({ st2 with messages := g.2.1 ++ [Turn.mk "assistant" g.1] },
   l.2 ++ [Event.appendUser (Turn.mk "user" prompt)] ++ g.2.2
       ++ [Event.appendAssistant (Turn.mk "assistant" g.1)])

/-- One user submission: the prompt text, the timestamp the clock yields for
it, and whether the log write fails (and with what exception text). -/
abbrev Submission : Type := String × String × Option String

/-- A whole session: fold `handle_prompt` over a list of submissions,
collecting the event traces. -/
def run (client : Client) (sys : String) (api : List Turn → ApiResult) :
    List Submission → AppState → AppState × List Event
  | [], st => (st, [])
  | sub :: rest, st =>
    let h := handle_prompt client sys api sub.1 sub.2.1 sub.2.2 st
    let r := run client sys api rest h.1
    (r.1, h.2 ++ r.2)

/-- The response `get_groq_response` returns for a given history. -/
def turnResponse (client : Client) (sys : String) (api : List Turn → ApiResult)
    (hist : List Turn) : String :=
  (get_groq_response client sys api hist).1

/-- The two turns one submission appends, given the history it sees. -/
def submissionPair (client : Client) (sys : String) (api : List Turn → ApiResult)
    (hist : List Turn) (p : String) : List Turn :=
  [Turn.mk "user" p,
   Turn.mk "assistant" (turnResponse client sys api (hist ++ [Turn.mk "user" p]))]

/-- The turns a list of submissions appends after history `hist`. -/
def runDelta (client : Client) (sys : String) (api : List Turn → ApiResult) :
    List Submission → List Turn → List Turn
  | [], _ => []
  | sub :: rest, hist =>
    let pair := submissionPair client sys api hist sub.1
    pair ++ runDelta client sys api rest (hist ++ pair)

/-- Whether an event is an API call. -/
def isApiCallEv : Event → Bool
  | Event.apiCall _ => true
  | _ => false

/-! ## Helper lemmas -/

theorem log_messages (ts : String) (lf : Option String) (p : String) (st : AppState) :
    ((log_user_prompt ts lf p st).1).messages = st.messages := by
  cases lf <;> rfl

theorem get_hist (client : Client) (sys : String) (api : List Turn → ApiResult)
    (hist : List Turn) : (get_groq_response client sys api hist).2.1 = hist := by
  cases client
  · cases h : api (apiMessages sys hist) <;> simp [get_groq_response, h]
  · rfl

theorem handle_messages (client : Client) (sys : String) (api : List Turn → ApiResult)
    (p ts : String) (lf : Option String) (st : AppState) :
    (handle_prompt client sys api p ts lf st).1.messages
      = st.messages ++ submissionPair client sys api st.messages p := by
  simp [handle_prompt, submissionPair, turnResponse, get_hist, log_messages]

theorem submissionPair_roles (client : Client) (sys : String) (api : List Turn → ApiResult)
    (hist : List Turn) (p : String) :
    ∀ m ∈ submissionPair client sys api hist p, m.role = "user" ∨ m.role = "assistant" := by
  intro m hm
  simp [submissionPair] at hm
  rcases hm with h | h <;> simp [h]

theorem run_messages (client : Client) (sys : String) (api : List Turn → ApiResult) :
    ∀ (subs : List Submission) (st : AppState),
      (run client sys api subs st).1.messages
        = st.messages ++ runDelta client sys api subs st.messages := by
  intro subs
  induction subs with
  | nil => intro st; simp [run, runDelta]
  | cons sub rest ih =>
    intro st
    simp only [run, runDelta]
    rw [ih, handle_messages]
    simp [List.append_assoc]

theorem runDelta_length (client : Client) (sys : String) (api : List Turn → ApiResult) :
    ∀ (subs : List Submission) (hist : List Turn),
      (runDelta client sys api subs hist).length = 2 * subs.length := by
  intro subs
  induction subs with
  | nil => intro hist; simp [runDelta]
  | cons sub rest ih =>
    intro hist
    simp [runDelta, submissionPair, ih]
    omega

theorem runDelta_roles (client : Client) (sys : String) (api : List Turn → ApiResult) :
    ∀ (subs : List Submission) (hist : List Turn) (m : Turn),
      m ∈ runDelta client sys api subs hist → m.role = "user" ∨ m.role = "assistant" := by
  intro subs
  induction subs with
  | nil => intro hist m hm; simp [runDelta] at hm
  | cons sub rest ih =>
    intro hist m hm
    simp only [runDelta, List.mem_append] at hm
    rcases hm with h | h
    · exact submissionPair_roles client sys api hist sub.1 m h
    · exact ih _ m h

theorem apiMessages_eq (sys : String) (hist : List Turn) :
    apiMessages sys hist = Turn.mk "system" sys :: hist := by
  simp only [apiMessages, List.cons.injEq, true_and]
  induction hist with
  | nil => rfl
  | cons a t ih => simp [ih]

theorem extractLinkedin_noRaise :
    ∀ (ps : List PageResult) (acc : String), (∀ p ∈ ps, isRaise p = false) →
      extractLinkedin ps acc = (acc ++ pagesText ps, none) := by
  intro ps
  induction ps with
  | nil => intro acc _; simp [extractLinkedin, pagesText, String.append_empty]
  | cons p rest ih =>
    intro acc h
    have hrest : ∀ q ∈ rest, isRaise q = false := fun q hq => h q (List.mem_cons_of_mem p hq)
    match p with
    | PageResult.ret (some s) =>
      by_cases hs : s = ""
      · simp [extractLinkedin, pagesText, hs, ih acc hrest]
      · simp [extractLinkedin, pagesText, hs, ih (acc ++ s) hrest, String.append_assoc]
    | PageResult.ret none => simp [extractLinkedin, pagesText, ih acc hrest]
    | PageResult.raise e =>
      exact absurd (h (PageResult.raise e) (List.mem_cons_self _ _)) (by simp [isRaise])

theorem extractLinkedin_raise :
    ∀ (pre : List PageResult) (e : String) (suf : List PageResult) (acc : String),
      (∀ p ∈ pre, isRaise p = false) →
      extractLinkedin (pre ++ PageResult.raise e :: suf) acc = (acc ++ pagesText pre, some e) := by
  intro pre
  induction pre with
  | nil => intro e suf acc _; simp [extractLinkedin, pagesText, String.append_empty]
  | cons p rest ih =>
    intro e suf acc h
    have hrest : ∀ q ∈ rest, isRaise q = false := fun q hq => h q (List.mem_cons_of_mem p hq)
    match p with
    | PageResult.ret (some s) =>
      by_cases hs : s = ""
      · simp [extractLinkedin, pagesText, hs, ih e suf acc hrest]
      · simp [extractLinkedin, pagesText, hs, ih e suf (acc ++ s) hrest, String.append_assoc]
    | PageResult.ret none => simp [extractLinkedin, pagesText, ih e suf acc hrest]
    | PageResult.raise e2 =>
      exact absurd (h (PageResult.raise e2) (List.mem_cons_self _ _)) (by simp [isRaise])

theorem handle_filter_apiCall (sys : String) (api : List Turn → ApiResult)
    (p ts : String) (lf : Option String) (st : AppState) :
    (handle_prompt Client.ok sys api p ts lf st).2.filter isApiCallEv
      = [Event.apiCall (apiMessages sys (st.messages ++ [Turn.mk "user" p]))] := by
  cases lf <;>
    cases h : api (apiMessages sys (st.messages ++ [Turn.mk "user" p])) <;>
      simp [handle_prompt, log_user_prompt, get_groq_response, isApiCallEv, h]

theorem handle_apiCall_mem (sys : String) (api : List Turn → ApiResult)
    (p ts : String) (lf : Option String) (st : AppState) (msgs : List Turn) :
    Event.apiCall msgs ∈ (handle_prompt Client.ok sys api p ts lf st).2 →
    msgs = apiMessages sys (st.messages ++ [Turn.mk "user" p]) := by
  cases lf <;>
    cases h : api (apiMessages sys (st.messages ++ [Turn.mk "user" p])) <;>
      simp [handle_prompt, log_user_prompt, get_groq_response, h]

theorem run_apiCall_inv (sys : String) (api : List Turn → ApiResult) :
    ∀ (subs : List Submission) (st : AppState) (msgs : List Turn),
      Event.apiCall msgs ∈ (run Client.ok sys api subs st).2 →
      ∃ hist, msgs = Turn.mk "system" sys :: hist ∧
        ∀ m ∈ hist, m ∈ st.messages ∨ m.role = "user" ∨ m.role = "assistant" := by
  intro subs
  induction subs with
  | nil => intro st msgs hm; simp [run] at hm
  | cons sub rest ih =>
    intro st msgs hm
    simp only [run, List.mem_append] at hm
    rcases hm with h | h
    · have heq := handle_apiCall_mem sys api sub.1 sub.2.1 sub.2.2 st msgs h
      refine ⟨st.messages ++ [Turn.mk "user" sub.1], by rw [heq, apiMessages_eq], ?_⟩
      intro m hm2
      rcases List.mem_append.mp hm2 with h2 | h2
      · exact Or.inl h2
      · simp at h2; right; left; simp [h2]
    · obtain ⟨hist, heq, hmem⟩ := ih _ msgs h
      refine ⟨hist, heq, ?_⟩
      intro m hm2
      rcases hmem m hm2 with h2 | h2
      · rw [handle_messages] at h2
        rcases List.mem_append.mp h2 with h3 | h3
        · exact Or.inl h3
        · exact Or.inr (submissionPair_roles Client.ok sys api st.messages sub.1 m h3)
      · exact Or.inr h2

/-! ## Claim theorems -/

/-- C1, counterexample: the session state is initialised with a greeting
assistant turn (lines 128-131), so after 1 successful submission the
transcript has 3 turns, not `2 * 1` as the claim states. -/
theorem claim_C1_counterexample :
    ((run Client.ok "sys" (fun _ => ApiResult.ok "reply")
        [("Hi", "2024-01-01 00:00:00", none)] initialState).1.messages).length = 3 ∧
    (3 : Nat) ≠ 2 * 1 := by
  constructor
  · rfl
  · decide

/-- C1, amended: the transcript is strictly append-only — running any
submissions only appends `runDelta`, which per submission contributes one
user turn followed by one assistant (or error-text) turn, in submission
order; since the session starts with one greeting assistant turn, the
length after N successful submissions is `2 * N + 1`, not `2 * N`. -/
theorem claim_C1_amended (client : Client) (sys : String) (api : List Turn → ApiResult)
    (subs : List Submission) :
    (∀ st : AppState, (run client sys api subs st).1.messages
        = st.messages ++ runDelta client sys api subs st.messages) ∧
    (runDelta client sys api subs initialState.messages).length = 2 * subs.length ∧
    ((run client sys api subs initialState).1.messages).length = 2 * subs.length + 1 := by
  refine ⟨run_messages client sys api subs, runDelta_length client sys api subs _, ?_⟩
  rw [run_messages client sys api subs initialState]
  simp [runDelta_length client sys api subs, initialState]

/-- C2, counterexample: for the nonempty, untruncated profile text `"abc"`
(length 3 ≤ 500) the preview is `"abc..."` — the `"..."` suffix is appended
even though the text was not truncated, contradicting the iff in the
claim. -/
theorem claim_C2_counterexample :
    ("abc" : String).length ≤ 500 ∧ linkedinPreview "abc" = "abc..." ∧
    linkedinPreview "abc" ≠ "abc" := by
  refine ⟨by decide, by decide, by decide⟩

/-- C2, amended: for every nonempty profile text the preview is exactly the
first `min(500, len)` characters with `"..."` always appended (also when
nothing was truncated); for the empty text a placeholder is shown
instead. -/
theorem claim_C2_amended (s : String) :
    (s ≠ "" → linkedinPreview s = strTake s 500 ++ "..." ∧
        (strTake s 500).length = min 500 s.length) ∧
    (s = "" → linkedinPreview s = "No LinkedIn data loaded.") := by
  constructor
  · intro h
    refine ⟨by simp [linkedinPreview, h], ?_⟩
    show (s.data.take 500).length = min 500 s.data.length
    exact List.length_take 500 s.data
  · intro h
    simp [linkedinPreview, h]

/-- C2, witness for the amended theorem at the concrete text `"abc"`. -/
theorem claim_C2_witness :
    linkedinPreview "abc" = strTake "abc" 500 ++ "..." ∧
    (strTake "abc" 500).length = min 500 ("abc" : String).length :=
  (claim_C2_amended "abc").1 (by decide)

/-- C3, counterexample: a present PDF whose first page extracts
`"Page one."` and whose second page raises — the loader emits a non-fatal
error but the blob is the partially accumulated `"Page one."`, not the
empty string the claim requires. -/
theorem claim_C3_counterexample :
    loadLinkedin (PdfFile.pages [PageResult.ret (some "Page one."), PageResult.raise "bad stream"])
      = ("Page one.", [Notice.error ("❌ Error reading LinkedIn PDF: " ++ "bad stream")]) ∧
    ("Page one." : String) ≠ "" := by
  constructor
  · rfl
  · decide

/-- C3, amended: the Context Loader never raises; an absent file yields the
empty blob and a warning; a summary read failure or PDF open failure yields
the empty blob and a non-fatal error; a PDF page raising mid-extraction
yields a non-fatal error with the blob equal to the text accumulated from
the pages before the failure (possibly nonempty); raise-free inputs load in
full with no notice. -/
theorem claim_C3_amended (e s : String) (ps pre suf : List PageResult) :
    loadSummary TextFile.absent
      = ("", [Notice.warning "📝 Summary file not found at: me/summary.txt. Chatbot context may be limited."]) ∧
    loadSummary (TextFile.readFail e) = ("", [Notice.error ("❌ Error reading summary file: " ++ e)]) ∧
    loadSummary (TextFile.content s) = (s, []) ∧
    loadLinkedin PdfFile.absent
      = ("", [Notice.warning "📄 LinkedIn PDF not found at: me/linkedin.pdf. Chatbot context may be limited."]) ∧
    loadLinkedin (PdfFile.openFail e) = ("", [Notice.error ("❌ Error reading LinkedIn PDF: " ++ e)]) ∧
    ((∀ p ∈ ps, isRaise p = false) → loadLinkedin (PdfFile.pages ps) = (pagesText ps, [])) ∧
    ((∀ p ∈ pre, isRaise p = false) →
      loadLinkedin (PdfFile.pages (pre ++ PageResult.raise e :: suf))
        = (pagesText pre, [Notice.error ("❌ Error reading LinkedIn PDF: " ++ e)])) := by
  refine ⟨rfl, rfl, rfl, rfl, rfl, ?_, ?_⟩
  · intro h
    have := extractLinkedin_noRaise ps "" h
    simp [loadLinkedin, this, String.empty_append]
  · intro h
    have := extractLinkedin_raise pre e suf "" h
    simp [loadLinkedin, this, String.empty_append]

/-- C3, witness for the amended theorem: one good page, then a raising
page. -/
theorem claim_C3_witness :
    loadLinkedin (PdfFile.pages ([PageResult.ret (some "A")] ++ PageResult.raise "boom" :: [PageResult.ret (some "B")]))
      = (pagesText [PageResult.ret (some "A")], [Notice.error ("❌ Error reading LinkedIn PDF: " ++ "boom")]) :=
  (claim_C3_amended "boom" "s" [] [PageResult.ret (some "A")] [PageResult.ret (some "B")]).2.2.2.2.2.2
    (by decide)

/-- C4: every completion-API call sends exactly the system instruction
followed by the full stored transcript, unfiltered and in order; the
rendered transcript never contains a system turn; and every API call of a
session carries the same system turn `⟨"system", sys⟩` at its head, with no
system turn elsewhere in the sent list. -/
theorem claim_C4 (sys : String) (api : List Turn → ApiResult) (subs : List Submission) :
    (∀ hist, apiMessages sys hist = Turn.mk "system" sys :: hist) ∧
    (∀ (p ts : String) (lf : Option String) (st : AppState),
      (handle_prompt Client.ok sys api p ts lf st).2.filter isApiCallEv
        = [Event.apiCall (Turn.mk "system" sys :: (st.messages ++ [Turn.mk "user" p]))]) ∧
    (∀ m ∈ (run Client.ok sys api subs initialState).1.messages, m.role ≠ "system") ∧
    (∀ msgs, Event.apiCall msgs ∈ (run Client.ok sys api subs initialState).2 →
      ∃ hist, msgs = Turn.mk "system" sys :: hist ∧ ∀ m ∈ hist, m.role ≠ "system") := by
  refine ⟨apiMessages_eq sys, ?_, ?_, ?_⟩
  · intro p ts lf st
    rw [handle_filter_apiCall, apiMessages_eq]
  · intro m hm
    rw [run_messages] at hm
    rcases List.mem_append.mp hm with h | h
    · simp [initialState] at h
      simp [h]
    · rcases runDelta_roles Client.ok sys api subs initialState.messages m h with h2 | h2 <;>
        simp [h2]
  · intro msgs hm
    obtain ⟨hist, heq, hmem⟩ := run_apiCall_inv sys api subs initialState msgs hm
    refine ⟨hist, heq, ?_⟩
    intro m hm2
    rcases hmem m hm2 with h | h | h
    · simp [initialState] at h
      simp [h]
    · simp [h]
    · simp [h]

set_option maxRecDepth 4000 in
/-- C4, witness: in the empty session with system instruction `"S"`, the
greeting turn (a member of the transcript) is not a system turn. -/
theorem claim_C4_witness : (Turn.mk "assistant" greeting).role ≠ "system" :=
  (claim_C4 "S" (fun _ => ApiResult.ok "r") []).2.2.1
    (Turn.mk "assistant" greeting) (by decide)

/-- C5: with an uninitialised client, `get_groq_response` returns the exact
fixed string of line 84 for every history, and the handler appends it to
the transcript as an assistant turn (the embedding is total: no exception
escapes). -/
theorem claim_C5 (sys : String) (api : List Turn → ApiResult) (hist : List Turn)
    (p ts : String) (lf : Option String) (st : AppState) :
    (get_groq_response Client.uninitialized sys api hist).1
      = "The Groq client is not initialized. Cannot generate a response." ∧
    (handle_prompt Client.uninitialized sys api p ts lf st).1.messages
      = st.messages ++ [Turn.mk "user" p,
          Turn.mk "assistant" "The Groq client is not initialized. Cannot generate a response."] := by
  constructor
  · rfl
  · rw [handle_messages]
    rfl

/-- C6: whenever the completion call fails with exception text `e`, the
chat function returns the human-readable error string of line 102 (which
contains `e`), does not raise, and the handler appends that string to the
transcript as an assistant turn, exactly like a genuine answer. -/
theorem claim_C6 (sys e : String) (api : List Turn → ApiResult) (p ts : String)
    (lf : Option String) (st : AppState)
    (h : api (apiMessages sys (st.messages ++ [Turn.mk "user" p])) = ApiResult.error e) :
    (get_groq_response Client.ok sys api (st.messages ++ [Turn.mk "user" p])).1 = apiErrorMsg e ∧
    apiErrorMsg e
      = "An error occurred while communicating with the Groq API. This could be a connectivity issue or an invalid API key. Error: " ++ e ∧
    (handle_prompt Client.ok sys api p ts lf st).1.messages
      = st.messages ++ [Turn.mk "user" p, Turn.mk "assistant" (apiErrorMsg e)] := by
  refine ⟨by simp [get_groq_response, h], rfl, ?_⟩
  rw [handle_messages]
  simp [submissionPair, turnResponse, get_groq_response, h]

/-- C6, witness: a concrete always-failing API with exception text
`"timeout"`. -/
theorem claim_C6_witness :
    (handle_prompt Client.ok "S" (fun _ => ApiResult.error "timeout") "Hi" "t" none
        initialState).1.messages
      = initialState.messages ++ [Turn.mk "user" "Hi", Turn.mk "assistant" (apiErrorMsg "timeout")] :=
  (claim_C6 "S" "timeout" (fun _ => ApiResult.error "timeout") "Hi" "t" none initialState rfl).2.2

/-- C7: on every user turn the log event comes first in the turn's event
trace (before the user-turn append and the API call); on success exactly
the one line `"[" ++ ts ++ "] USER PROMPT: " ++ prompt ++ "\n"` is appended
to the log file; on a write failure the log is unchanged, the error is only
printed to the developer channel, and the chat turn's transcript is
identical to the success case — logging failure never blocks or alters the
turn. -/
theorem claim_C7 (client : Client) (sys : String) (api : List Turn → ApiResult)
    (p ts e : String) (st : AppState) :
    (handle_prompt client sys api p ts none st).1.chatLog = st.chatLog ++ [logEntry ts p] ∧
    (handle_prompt client sys api p ts none st).2.head? = some (Event.logWrite (logEntry ts p)) ∧
    logEntry ts p = "[" ++ ts ++ "] USER PROMPT: " ++ p ++ "\n" ∧
    (handle_prompt client sys api p ts (some e) st).1.chatLog = st.chatLog ∧
    (handle_prompt client sys api p ts (some e) st).1.printed
      = st.printed ++ ["Error logging prompt: " ++ e] ∧
    (handle_prompt client sys api p ts (some e) st).2.head?
      = some (Event.logFailure ("Error logging prompt: " ++ e)) ∧
    (handle_prompt client sys api p ts (some e) st).1.messages
      = (handle_prompt client sys api p ts none st).1.messages := by
  refine ⟨?_, ?_, rfl, ?_, ?_, ?_, ?_⟩ <;>
    cases client <;>
      simp [handle_prompt, log_user_prompt, get_groq_response]

/-- C8: the Prompt Builder is the pure function `system_prompt` of the two
context blobs (and the identity constants); its output contains the display
name at least once, and both the summary and LinkedIn blobs appear verbatim
as substrings — no truncation, no sanitisation. -/
theorem claim_C8 (summary linkedin : String) :
    (∃ a b, system_prompt summary linkedin = a ++ (name ++ b)) ∧
    (∃ a b, system_prompt summary linkedin = a ++ (summary ++ b)) ∧
    (∃ a b, system_prompt summary linkedin = a ++ (linkedin ++ b)) := by
  refine ⟨⟨spA0, spA1 ++ summary ++ spB ++ linkedin ++ spC, ?_⟩,
          ⟨spA0 ++ name ++ spA1, spB ++ linkedin ++ spC, ?_⟩,
          ⟨spA0 ++ name ++ spA1 ++ summary ++ spB, spC, ?_⟩⟩ <;>
    simp [system_prompt, String.append_assoc]

/-- C9: with a mocked completion API that returns `"Hello, World"`,
submitting `"Hi"` appends exactly the user turn `"Hi"` followed by the
assistant turn `"Hello, World"` — the transcript tail after the turn is
those two turns. -/
theorem claim_C9 (sys ts : String) (lf : Option String) (st : AppState) :
    (handle_prompt Client.ok sys (fun _ => ApiResult.ok "Hello, World") "Hi" ts lf st).1.messages
      = st.messages ++ [Turn.mk "user" "Hi", Turn.mk "assistant" "Hello, World"] := by
  rw [handle_messages]
  rfl

/-- C10: `get_groq_response` never mutates the chat history it receives —
the history after the call equals the history before — and all transcript
appends happen in the caller: the handler's final transcript is the input
transcript plus exactly the user turn and the assistant turn it appends. -/
theorem claim_C10 (client : Client) (sys : String) (api : List Turn → ApiResult)
    (hist : List Turn) (p ts : String) (lf : Option String) (st : AppState) :
    (get_groq_response client sys api hist).2.1 = hist ∧
    (handle_prompt client sys api p ts lf st).1.messages
      = st.messages ++ [Turn.mk "user" p,
          Turn.mk "assistant" (turnResponse client sys api (st.messages ++ [Turn.mk "user" p]))] := by
  refine ⟨get_hist client sys api hist, ?_⟩
  rw [handle_messages]
  rfl

end ResumeBot
